import Mathlib

/-!
Shallow embedding of the gmail-cleaner filter and client modules
(`config.py`, `email_filter.py`, `gmail_client.py`).

Conventions of the embedding:
* Python `datetime` values are modelled as integer timestamps in seconds;
  `timedelta(days = n)` is `n * 86400`.  The evaluation time `datetime.now()`
  is passed explicitly as a `now : Int` parameter.
* Python floats (sizes in MB, confidences, scores) are modelled as `Rat`;
  for every value occurring in this development the float and rational
  computations agree.
* The metadata dictionary is modelled as a structure of `Option` fields, one
  per key the code reads; `dict.get(key, default)` becomes `Option.getD`.
* Python exceptions are modelled with `Except String`; the string is the
  exception message (decimal formatting of rationals inside the cosmetic
  reason strings is abstracted by `ratStr`).
* Calls issued to the Gmail mutation service are made observable by
  returning a trace of `MutCall` values next to each result.
-/

/-- Python `str.lower`, character by character. -/
def lowerStr (s : String) : String :=
  String.mk (s.data.map Char.toLower)

/-- Python `needle in hay` on lists of characters (contiguous substring). -/
def infixCheck (needle : List Char) : List Char → Bool
  | [] => needle.isEmpty
  | c :: rest => needle.isPrefixOf (c :: rest) || infixCheck needle rest

/-- Python `needle in hay` for strings. -/
def substr (needle hay : String) : Bool :=
  infixCheck needle.data hay.data

/-- Rendering of a rational used inside cosmetic reason strings
(the source formats floats with `:.2f`; the exact text is not load-bearing). -/
def ratStr (q : Rat) : String :=
  toString q.num ++ "/" ++ toString q.den

/-- `config.FilterConfig` with the defaults installed by `__post_init__`. -/
structure FilterConfig where
  older_than_days : Int := 365
  newer_than_days : Option Int := none
  min_size_mb : Option Rat := none
  max_size_mb : Option Rat := none
  large_attachment_mb : Rat := 10
  exclude_senders : List String := []
  include_senders : List String := []
  newsletter_domains : List String :=
    ["noreply@", "no-reply@", "newsletter@", "marketing@",
     "notifications@", "updates@", "support@"]
  exclude_labels : List String := ["IMPORTANT", "STARRED"]
  include_labels : List String := []
  exclude_folders : List String := ["SENT", "DRAFTS"]
  custom_queries : List String := []
deriving Repr

/-- `config.SafetyConfig` with its field defaults. -/
structure SafetyConfig where
  dry_run_mode : Bool := true
  require_confirmation : Bool := true
  backup_verification_level : String := "full"
  soft_delete : Bool := true
  batch_size : Nat := 50
  rate_limit_delay : Rat := 1/10
  max_retries : Nat := 3
  enable_rollback : Bool := true
deriving Repr

/-- The metadata dictionary handed to the filter: one `Option` field per key
the filter reads (`label_ids`, `from`, `subject`, `size_estimate`, `date`);
`none` models a missing key (`from` is spelled `sender` because `from` is a
Lean keyword).  The diagnostic `metadata` sub-dictionary attached to filter
results is not modelled. -/
structure EmailMetadata where
  label_ids : Option (List String) := none
  sender : Option String := none
  subject : Option String := none
  size_estimate : Option Nat := none
  date : Option Int := none
deriving Repr, DecidableEq

/-- `email_filter.FilterResult` (without the diagnostic metadata dict). -/
structure FilterResult where
  should_process : Bool
  reason : String
  confidence : Rat
  filter_type : String
deriving Repr, DecidableEq

/-- `EmailFilter._check_exclusions`: first matching excluded label, then
first matching excluded folder, then first excluded sender whose lowered
text occurs in the lowered `from` field. -/
def _check_exclusions (cfg : FilterConfig) (md : EmailMetadata) : Option FilterResult :=
  let label_ids := md.label_ids.getD []
  match cfg.exclude_labels.find? (fun l => label_ids.contains l) with
  | some l =>
    some { should_process := false, reason := "Has excluded label: " ++ l,
           confidence := 1, filter_type := "exclusion" }
  | none =>
    match cfg.exclude_folders.find? (fun f => label_ids.contains f) with
    | some f =>
      some { should_process := false, reason := "In excluded folder: " ++ f,
             confidence := 1, filter_type := "exclusion" }
    | none =>
      let sender := lowerStr (md.sender.getD "")
      match cfg.exclude_senders.find? (fun s => substr (lowerStr s) sender) with
      | some s =>
        some { should_process := false, reason := "From excluded sender: " ++ s,
               confidence := 1, filter_type := "exclusion" }
      | none => none

/-- `EmailFilter._check_time_filters`.  A missing date is a conservative
reject; the `older_than` / `newer_than` guards mirror Python truthiness
(`0` and `None` both skip the bound). -/
def _check_time_filters (cfg : FilterConfig) (now : Int) (md : EmailMetadata) :
    Option FilterResult :=
  match md.date with
  | none =>
    some { should_process := false, reason := "Unable to parse email date",
           confidence := 1/2, filter_type := "time" }
  | some email_date =>
    if cfg.older_than_days ≠ 0 ∧ email_date > now - cfg.older_than_days * 86400 then
      some { should_process := false,
             reason := "Email too recent (newer than " ++
               toString cfg.older_than_days ++ " days)",
             confidence := 1, filter_type := "time" }
    else
      match cfg.newer_than_days with
      | some k =>
        if k ≠ 0 ∧ email_date < now - k * 86400 then
          some { should_process := false,
                 reason := "Email too old (older than " ++ toString k ++ " days)",
                 confidence := 1, filter_type := "time" }
        else none
      | none => none

/-- `EmailFilter._check_size_filters`; a missing or zero `size_estimate`
yields `size_mb = 0` (Python truthiness on `size_bytes`). -/
def _check_size_filters (cfg : FilterConfig) (md : EmailMetadata) :
    Option FilterResult :=
  let size_bytes := md.size_estimate.getD 0
  let size_mb : Rat := if size_bytes ≠ 0 then (size_bytes : Rat) / (1024 * 1024) else 0
  match cfg.min_size_mb with
  | some m =>
    if m ≠ 0 ∧ size_mb < m then
      some { should_process := false,
             reason := "Email too small (" ++ ratStr size_mb ++ " MB < " ++
               ratStr m ++ " MB)",
             confidence := 4/5, filter_type := "size" }
    else
      match cfg.max_size_mb with
      | some mx =>
        if mx ≠ 0 ∧ size_mb > mx then
          some { should_process := false,
                 reason := "Email too large (" ++ ratStr size_mb ++ " MB > " ++
                   ratStr mx ++ " MB)",
                 confidence := 4/5, filter_type := "size" }
        else none
      | none => none
  | none =>
    match cfg.max_size_mb with
    | some mx =>
      if mx ≠ 0 ∧ size_mb > mx then
        some { should_process := false,
               reason := "Email too large (" ++ ratStr size_mb ++ " MB > " ++
                 ratStr mx ++ " MB)",
               confidence := 4/5, filter_type := "size" }
      else none
    | none => none

/-- `EmailFilter._check_sender_filters`: a non-empty `include_senders`
allowlist rejects unless some entry occurs (lowered) in the lowered sender. -/
def _check_sender_filters (cfg : FilterConfig) (md : EmailMetadata) :
    Option FilterResult :=
  let sender := lowerStr (md.sender.getD "")
  if cfg.include_senders ≠ [] then
    if cfg.include_senders.any (fun s => substr (lowerStr s) sender) then none
    else
      some { should_process := false, reason := "Sender not in whitelist",
             confidence := 9/10, filter_type := "sender" }
  else none

/-- `EmailFilter._check_content_filters`: a non-empty `include_labels`
list rejects unless at least one required label is present. -/
def _check_content_filters (cfg : FilterConfig) (md : EmailMetadata) :
    Option FilterResult :=
  if cfg.include_labels ≠ [] then
    let label_ids := md.label_ids.getD []
    if cfg.include_labels.any (fun l => label_ids.contains l) then none
    else
      some { should_process := false, reason := "Missing required labels",
             confidence := 4/5, filter_type := "content" }
  else none

/-- `EmailFilter._check_custom_queries`: placeholder, always passes. -/
def _check_custom_queries (_cfg : FilterConfig) (_md : EmailMetadata) :
    Option FilterResult :=
  none

/-- `EmailFilter.should_process_email`: the six stages in source order; the
first stage returning a result with `should_process = False` wins, otherwise
the inclusive accept is returned.  (The stages are pure, so evaluating the
list eagerly is observationally identical to Python's short-circuit loop.) -/
def should_process_email (cfg : FilterConfig) (now : Int) (md : EmailMetadata) :
    FilterResult :=
  let results : List (Option FilterResult) :=
    [_check_exclusions cfg md,
     _check_time_filters cfg now md,
     _check_size_filters cfg md,
     _check_sender_filters cfg md,
     _check_content_filters cfg md,
     _check_custom_queries cfg md]
  match results.find? (fun r =>
      match r with
      | some fr => !fr.should_process
      | none => false) with
  | some (some fr) => fr
  | _ =>
    { should_process := true, reason := "Passed all filter criteria",
      confidence := 4/5, filter_type := "inclusive" }

/-- The promotional keyword list from `EmailFilter.categorize_email`. -/
def promotional_keywords : List String :=
  ["sale", "deal", "offer", "discount", "limited time", "%"]

/-- The promotional section of `EmailFilter.categorize_email`: `0.2` per
keyword found in the lowered subject, boolean strict threshold `> 0.4`.
Returns `(promotional_score, is_promotional)`. -/
def categorize_email_promotional (md : EmailMetadata) :
    Rat × Bool :=
  let subject := lowerStr (md.subject.getD "")
  let score :=
    promotional_keywords.foldl
      (fun acc k => if substr k subject then acc + 1/5 else acc) 0
  (score, decide (score > 2/5))

/-- Python `int(q)` (truncation toward zero) for the size clauses of the
query builder. -/
def pyInt (q : Rat) : Int :=
  q.num / (q.den : Int)

/-- `EmailFilter.build_gmail_query`: clauses in source order, space-joined;
each guard mirrors Python truthiness of the corresponding config field. -/
def build_gmail_query (cfg : FilterConfig) : String :=
  let query_parts : List String :=
    (if cfg.older_than_days ≠ 0 then
      ["older_than:" ++ toString cfg.older_than_days ++ "d"] else [])
    ++ (match cfg.newer_than_days with
        | some k => if k ≠ 0 then ["newer_than:" ++ toString k ++ "d"] else []
        | none => [])
    ++ (match cfg.min_size_mb with
        | some m => if m ≠ 0 then
            ["larger:" ++ toString (pyInt (m * 1024 * 1024))] else []
        | none => [])
    ++ (match cfg.max_size_mb with
        | some m => if m ≠ 0 then
            ["smaller:" ++ toString (pyInt (m * 1024 * 1024))] else []
        | none => [])
    ++ cfg.exclude_labels.map (fun l => "-label:" ++ l)
    ++ cfg.exclude_folders.map (fun f => "-in:" ++ f)
    ++ (if cfg.include_labels ≠ [] then
        ["(" ++ String.intercalate (" OR ")
            (cfg.include_labels.map (fun l => "label:" ++ l)) ++ ")"]
        else [])
    ++ (if cfg.exclude_senders ≠ [] then
        cfg.exclude_senders.map (fun s => "-from:" ++ s) else [])
    ++ (if cfg.include_senders ≠ [] then
        ["(" ++ String.intercalate (" OR ")
            (cfg.include_senders.map (fun s => "from:" ++ s)) ++ ")"]
        else [])
    ++ cfg.custom_queries
  String.intercalate (" ") query_parts

/-- One call issued to the Gmail mutation service: `messages().trash(id)` or
`messages().delete(id)`. -/
inductive MutCall
  | trash : String → MutCall
  | delete : String → MutCall
deriving Repr, DecidableEq

/-- The call `GmailClient.delete_message` issues for a given `permanent`
flag. -/
def call_of (permanent : Bool) (mid : String) : MutCall :=
  if permanent then MutCall.delete mid else MutCall.trash mid

/-- `GmailClient.delete_message`: issues exactly one trash/delete call; the
oracle `mutator` says whether the service call succeeds, a failing call raises
`GmailAPIError` (modelled as `Except.error`).  The issued call is returned
as a trace next to the result. -/
def delete_message (mutator : String → Bool) (permanent : Bool) (mid : String) :
    Except String Bool × List MutCall :=
  if mutator mid then
    (Except.ok true, [call_of permanent mid])
  else
    (Except.error ("Failed to delete message " ++ mid), [call_of permanent mid])

/-- The per-id loop of `GmailClient.delete_messages_batch`: each id is tried
once, a `GmailAPIError` is caught and the id appended to the failed list;
there is no retry.  Returns `(success_ids, failed_ids, issued calls)`. -/
def delete_loop (mutator : String → Bool) (permanent : Bool) :
    List String → List String × List String × List MutCall
  | [] => ([], [], [])
  | m :: rest =>
    let step := delete_message mutator permanent m
    let tail := delete_loop mutator permanent rest
    match step.1 with
    | Except.ok _ => (m :: tail.1, tail.2.1, step.2 ++ tail.2.2)
    | Except.error _ => (tail.1, m :: tail.2.1, step.2 ++ tail.2.2)

/-- Outcome dictionary of `delete_messages_batch`. -/
structure BatchOutcome where
  success : List String
  failed : List String
deriving Repr, DecidableEq

/-- `GmailClient.delete_messages_batch`: early return on an empty id list,
otherwise the sequential per-id loop.  The function consults no
`SafetyConfig` field (no dry-run suppression, no retries, no batching by
`batch_size`); the trace of issued mutation calls is returned alongside. -/
def delete_messages_batch (mutator : String → Bool) (permanent : Bool)
    (message_ids : List String) : BatchOutcome × List MutCall :=
  if message_ids.isEmpty then
    ({ success := [], failed := [] }, [])
  else
    let r := delete_loop mutator permanent message_ids
    ({ success := r.1, failed := r.2.1 }, r.2.2)

/-- `GmailClient.get_message`: the oracle `src` models the Gmail service;
`none` models an `HttpError`, turned into `GmailAPIError` with the source's
message prefix. -/
def get_message (src : String → Option α) (message_id : String) :
    Except String α :=
  match src message_id with
  | some m => Except.ok m
  | none => Except.error ("Failed to get message " ++ message_id)

/-- The inner per-id loop of one batch in `GmailClient.get_messages_batch`:
stops at the first failing fetch (the exception escapes the `for`). -/
def fetch_batch (src : String → Option α) :
    List String → Except String (List α)
  | [] => Except.ok []
  | i :: rest =>
    match get_message src i with
    | Except.ok m =>
      match fetch_batch src rest with
      | Except.ok ms => Except.ok (m :: ms)
      | Except.error e => Except.error e
    | Except.error e => Except.error e

/-- `range(0, len(ids), 100)` slicing of `get_messages_batch`. -/
def toBatches : List String → List (List String)
  | [] => []
  | x :: xs => ((x :: xs).take 100) :: toBatches ((x :: xs).drop 100)
termination_by l => l.length
decreasing_by
  simp only [List.length_drop, List.length_cons]
  omega

/-- The outer loop of `get_messages_batch`: any exception inside a batch is
logged and re-raised as `GmailAPIError("Batch message retrieval failed: …")`,
aborting the whole retrieval. -/
def run_batches (src : String → Option α) :
    List (List String) → Except String (List α)
  | [] => Except.ok []
  | b :: bs =>
    match fetch_batch src b with
    | Except.ok ms =>
      match run_batches src bs with
      | Except.ok more => Except.ok (ms ++ more)
      | Except.error e => Except.error e
    | Except.error e => Except.error ("Batch message retrieval failed: " ++ e)

/-- `GmailClient.get_messages_batch`. -/
def get_messages_batch (src : String → Option α) (message_ids : List String) :
    Except String (List α) :=
  if message_ids.isEmpty then Except.ok []
  else run_batches src (toBatches message_ids)

/-- The per-id loop partitions the ids by mutator success, in order, and
issues exactly one call per id. -/
theorem delete_loop_spec (mutator : String → Bool) (permanent : Bool) :
    ∀ l : List String,
      delete_loop mutator permanent l =
        (l.filter mutator, l.filter (fun i => !(mutator i)), l.map (call_of permanent))
  | [] => rfl
  | m :: rest => by
    have ih := delete_loop_spec mutator permanent rest
    cases h : mutator m <;>
      simp [delete_loop, delete_message, ih, h, List.filter_cons]

/-- Lengths of the two complementary filters add up to the list length. -/
theorem length_filter_not (p : String → Bool) :
    ∀ l : List String,
      (l.filter p).length + (l.filter (fun i => !(p i))).length = l.length
  | [] => rfl
  | x :: xs => by
    have ih := length_filter_not p xs
    cases h : p x <;> simp [List.filter_cons, h] <;> omega

/-- Filtering by equality with an absent element yields the empty list. -/
theorem filter_beq_nil {l : List String} {a : String} (h : a ∉ l) :
    l.filter (fun i => i == a) = [] := by
  induction l with
  | nil => rfl
  | cons x xs ih =>
    have hxa : (x == a) = false := by
      simp only [beq_eq_false_iff_ne]
      intro he
      exact h (he ▸ List.mem_cons_self x xs)
    simp [List.filter_cons, hxa, ih (fun hm => h (List.mem_cons_of_mem x hm))]

/-- On a duplicate-free list containing `a`, filtering by equality with `a`
yields exactly `[a]`. -/
theorem filter_beq_of_nodup {l : List String} {a : String}
    (hnd : l.Nodup) (hmem : a ∈ l) :
    l.filter (fun i => i == a) = [a] := by
  induction l with
  | nil => cases hmem
  | cons x xs ih =>
    have hnd' := List.nodup_cons.mp hnd
    rcases List.mem_cons.mp hmem with h | h
    · subst h
      simp [List.filter_cons, filter_beq_nil hnd'.1]
    · have hxa : (x == a) = false := by
        simp only [beq_eq_false_iff_ne]
        intro he
        subst he
        exact hnd'.1 h
      simp [List.filter_cons, hxa, ih hnd'.2 h]

/-- C1.  The claim asserts that with `dry_run_mode = true` the batch apply
operation issues zero `MessageMutator` calls.  In the source,
`delete_messages_batch` never consults the safety configuration: even with a
`SafetyConfig` whose `dry_run_mode` is `true` in force, the accepted set
`["m1"]` provokes one trash call (and the success list happens to equal the
accepted set only because the mutator succeeded). -/
theorem c1_dry_run_ignored (sc : SafetyConfig) (hdry : sc.dry_run_mode = true) :
    (delete_messages_batch (fun _ => true) false ["m1"]).2 = [MutCall.trash "m1"] ∧
    (delete_messages_batch (fun _ => true) false ["m1"]).1.success = ["m1"] :=
  ⟨rfl, rfl⟩

/-- C1, witness: the default `SafetyConfig` has `dry_run_mode = true`, and
the call trace of the run is nevertheless non-empty. -/
theorem c1_dry_run_ignored_witness :
    ({} : SafetyConfig).dry_run_mode = true ∧
    ((delete_messages_batch (fun _ => true) false ["m1"]).2 = [MutCall.trash "m1"] ∧
     (delete_messages_batch (fun _ => true) false ["m1"]).1.success = ["m1"]) :=
  ⟨rfl, c1_dry_run_ignored {} rfl⟩

/-- C2.  Partial-failure invariant: for duplicate-free ids of which exactly
one (`bad`) always fails at the mutator, the batch outcome has `N - 1`
successes, failed list exactly `[bad]`, and the attempted total
`successes + failures` is `N`; the run returns normally (the embedding is a
total function into `BatchOutcome`, mirroring the caught `GmailAPIError`). -/
theorem c2_partial_failure (ids : List String) (bad : String) (permanent : Bool)
    (hmem : bad ∈ ids) (hnd : ids.Nodup) :
    (delete_messages_batch (fun i => !(i == bad)) permanent ids).1.success.length
        = ids.length - 1 ∧
    (delete_messages_batch (fun i => !(i == bad)) permanent ids).1.failed = [bad] ∧
    (delete_messages_batch (fun i => !(i == bad)) permanent ids).1.success.length
        + (delete_messages_batch (fun i => !(i == bad)) permanent ids).1.failed.length
        = ids.length := by
  have hne : ids.isEmpty = false := by
    cases ids with
    | nil => cases hmem
    | cons x xs => rfl
  have hfail : ids.filter (fun i => !(!(i == bad))) = [bad] := by
    have he : (fun i : String => !(!(i == bad))) = (fun i => i == bad) := by
      funext i
      exact Bool.not_not _
    rw [he]
    exact filter_beq_of_nodup hnd hmem
  have hlen := length_filter_not (fun i => !(i == bad)) ids
  rw [hfail] at hlen
  have h1 : (ids.filter (fun i => !(i == bad))).length + 1 = ids.length := by
    simpa using hlen
  have hout : delete_messages_batch (fun i => !(i == bad)) permanent ids =
      ({ success := ids.filter (fun i => !(i == bad)), failed := [bad] },
        ids.map (call_of permanent)) := by
    unfold delete_messages_batch
    rw [hne]
    simp [delete_loop_spec, filter_beq_of_nodup hnd hmem]
  rw [hout]
  refine ⟨?_, rfl, ?_⟩
  · show (ids.filter (fun i => !(i == bad))).length = ids.length - 1
    omega
  · show (ids.filter (fun i => !(i == bad))).length + ([bad] : List String).length
        = ids.length
    simpa using h1

/-- C2, witness at ids `["a", "b", "c"]` with `"b"` the always-failing id. -/
theorem c2_partial_failure_witness :
    (delete_messages_batch (fun i => !(i == "b")) false ["a", "b", "c"]).1.success.length
        = (["a", "b", "c"] : List String).length - 1 ∧
    (delete_messages_batch (fun i => !(i == "b")) false ["a", "b", "c"]).1.failed = ["b"] ∧
    (delete_messages_batch (fun i => !(i == "b")) false ["a", "b", "c"]).1.success.length
        + (delete_messages_batch (fun i => !(i == "b")) false ["a", "b", "c"]).1.failed.length
        = (["a", "b", "c"] : List String).length :=
  c2_partial_failure ["a", "b", "c"] "b" false (by simp) (by simp)

/-- C3.  The claim asserts a per-item retry loop bounded by
`SafetyConfig.max_retries`.  In the source no retry exists: even with the
configured ceiling `max_retries = 3` in force, an id whose every mutation
call fails is attempted exactly once (one issued call) and recorded as
failed immediately. -/
theorem c3_no_retry (sc : SafetyConfig) (hmr : sc.max_retries = 3) :
    (delete_messages_batch (fun _ => false) false ["m1"]).1.failed = ["m1"] ∧
    (delete_messages_batch (fun _ => false) false ["m1"]).2.length = 1 :=
  ⟨rfl, rfl⟩

/-- C3, witness: the default `SafetyConfig` has `max_retries = 3`, yet the
failing id gets a single attempt. -/
theorem c3_no_retry_witness :
    ({} : SafetyConfig).max_retries = 3 ∧
    ((delete_messages_batch (fun _ => false) false ["m1"]).1.failed = ["m1"] ∧
     (delete_messages_batch (fun _ => false) false ["m1"]).2.length = 1) :=
  ⟨rfl, c3_no_retry {} rfl⟩

/-- A batch that fetched successfully saw every one of its ids resolve. -/
theorem fetch_batch_ok {α : Type} (src : String → Option α) :
    ∀ (b : List String) (ms : List α), fetch_batch src b = Except.ok ms →
      ∀ i ∈ b, (src i).isSome = true := by
  intro b
  induction b with
  | nil =>
    intro ms _ i hi
    cases hi
  | cons x xs ih =>
    intro ms hok i hi
    rcases List.mem_cons.mp hi with h | h
    · subst h
      cases hsrc : src i with
      | none =>
        exfalso
        rw [fetch_batch, get_message, hsrc] at hok
        cases hok
      | some m => rfl
    · cases hsrc : src x with
      | none =>
        exfalso
        rw [fetch_batch, get_message, hsrc] at hok
        cases hok
      | some m =>
        rw [fetch_batch, get_message, hsrc] at hok
        cases hrest : fetch_batch src xs with
        | error e =>
          rw [hrest] at hok
          cases hok
        | ok ms' =>
          exact ih ms' hrest i h

/-- A retrieval that returned `ok` saw every id of every batch resolve. -/
theorem run_batches_ok {α : Type} (src : String → Option α) :
    ∀ (bs : List (List String)) (ms : List α), run_batches src bs = Except.ok ms →
      ∀ b ∈ bs, ∀ i ∈ b, (src i).isSome = true := by
  intro bs
  induction bs with
  | nil =>
    intro ms _ b hb
    cases hb
  | cons c cs ih =>
    intro ms hok b hb
    cases hc : fetch_batch src c with
    | error e =>
      exfalso
      rw [run_batches, hc] at hok
      cases hok
    | ok ms1 =>
      rw [run_batches, hc] at hok
      cases hrest : run_batches src cs with
      | error e =>
        rw [hrest] at hok
        cases hok
      | ok ms2 =>
        rcases List.mem_cons.mp hb with h | h
        · subst h
          exact fetch_batch_ok src b ms1 hc
        · exact ih ms2 hrest b h

/-- The 100-element slices concatenate back to the original id list. -/
theorem toBatches_flatten : ∀ l : List String, (toBatches l).flatten = l := by
  intro l
  induction l using toBatches.induct with
  | case1 => simp [toBatches]
  | case2 x xs ih =>
    rw [toBatches]
    simp only [List.flatten_cons, ih]
    exact List.take_append_drop 100 (x :: xs)

/-- C4 (amended).  A metadata-fetch failure for any candidate id aborts the
whole batch retrieval: `get_messages_batch` raises `GmailAPIError`
(modelled as `Except.error`) instead of skipping the candidate and
returning the remaining metadata. -/
theorem c4_fetch_failure_aborts {α : Type} (src : String → Option α)
    (ids : List String) (i : String) (hmem : i ∈ ids) (hfail : src i = none) :
    ∃ e, get_messages_batch src ids = Except.error e := by
  have hne : ids.isEmpty = false := by
    cases ids with
    | nil => cases hmem
    | cons x xs => rfl
  unfold get_messages_batch
  rw [hne]
  cases hr : run_batches src (toBatches ids) with
  | error e => exact ⟨e, by simp⟩
  | ok ms =>
    exfalso
    have hj : i ∈ (toBatches ids).flatten := by
      rw [toBatches_flatten]
      exact hmem
    obtain ⟨b, hb, hib⟩ := List.mem_flatten.mp hj
    have hsome := run_batches_ok src (toBatches ids) ms hr b hb i hib
    rw [hfail] at hsome
    cases hsome

/-- Gmail service oracle for the C4 scenario: metadata fetch fails for
`"m2"` only. -/
def c4_src : String → Option String :=
  fun i => if i == "m2" then none else some ("msg-" ++ i)

/-- C4, counterexample to the claim as stated: with candidates
`["m1", "m2", "m3"]` and only `"m2"` failing, `get_messages_batch` does not
return the metadata of the remaining candidates — it aborts with
`GmailAPIError`. -/
theorem c4_counterexample :
    get_messages_batch c4_src ["m1", "m2", "m3"] =
      Except.error "Batch message retrieval failed: Failed to get message m2" := by
  simp [get_messages_batch, toBatches, run_batches, fetch_batch, get_message, c4_src]

/-- C4, witness for the amended theorem at the same concrete scenario. -/
theorem c4_fetch_failure_aborts_witness :
    ∃ e, get_messages_batch c4_src ["m1", "m2", "m3"] = Except.error e :=
  c4_fetch_failure_aborts c4_src ["m1", "m2", "m3"] "m2" (by simp) rfl

/-- When the exclusion stage rejects, `should_process_email` returns its
result unchanged. -/
theorem spe_of_exclusion {cfg : FilterConfig} {now : Int} {md : EmailMetadata}
    {fr : FilterResult} (h : _check_exclusions cfg md = some fr)
    (hp : fr.should_process = false) :
    should_process_email cfg now md = fr := by
  unfold should_process_email
  simp [h, List.find?, hp]

/-- When the exclusion stage passes and the time stage rejects,
`should_process_email` returns the time stage's result. -/
theorem spe_of_time {cfg : FilterConfig} {now : Int} {md : EmailMetadata}
    {fr : FilterResult} (hex : _check_exclusions cfg md = none)
    (h : _check_time_filters cfg now md = some fr)
    (hp : fr.should_process = false) :
    should_process_email cfg now md = fr := by
  unfold should_process_email
  simp [hex, h, List.find?, hp]

/-- When the exclusion and time stages pass and the size stage rejects,
`should_process_email` returns the size stage's result. -/
theorem spe_of_size {cfg : FilterConfig} {now : Int} {md : EmailMetadata}
    {fr : FilterResult} (hex : _check_exclusions cfg md = none)
    (ht : _check_time_filters cfg now md = none)
    (h : _check_size_filters cfg md = some fr)
    (hp : fr.should_process = false) :
    should_process_email cfg now md = fr := by
  unfold should_process_email
  simp [hex, ht, h, List.find?, hp]

/-- C6.  Exclusion short-circuit: whenever some configured exclude-label is
present in the message's label set, `should_process_email` rejects with
stage `"exclusion"` and confidence `1.0`, regardless of every other
metadata field and of every other configured filter (the exclusion stage
runs first, and within it the label check runs first). -/
theorem c6_exclude_label_rejects (cfg : FilterConfig) (now : Int)
    (md : EmailMetadata) (l : String) (hl : l ∈ cfg.exclude_labels)
    (hml : l ∈ md.label_ids.getD []) :
    (should_process_email cfg now md).should_process = false ∧
    (should_process_email cfg now md).filter_type = "exclusion" ∧
    (should_process_email cfg now md).confidence = 1 := by
  have hfind : (cfg.exclude_labels.find?
      (fun x => (md.label_ids.getD []).contains x)).isSome = true := by
    rw [List.find?_isSome]
    refine ⟨l, hl, ?_⟩
    exact List.elem_eq_true_of_mem hml
  obtain ⟨x, hx⟩ := Option.isSome_iff_exists.mp hfind
  have hex : _check_exclusions cfg md =
      some { should_process := false, reason := "Has excluded label: " ++ x,
             confidence := 1, filter_type := "exclusion" } := by
    unfold _check_exclusions
    simp only [hx]
  rw [spe_of_exclusion hex rfl]
  exact ⟨rfl, rfl, rfl⟩

/-- C6, witness: default config (`exclude_labels` contains `IMPORTANT`),
message carrying labels `[INBOX, IMPORTANT]`. -/
theorem c6_exclude_label_rejects_witness :
    (should_process_email {} 0
        { label_ids := some ["INBOX", "IMPORTANT"] }).should_process = false ∧
    (should_process_email {} 0
        { label_ids := some ["INBOX", "IMPORTANT"] }).filter_type = "exclusion" ∧
    (should_process_email {} 0
        { label_ids := some ["INBOX", "IMPORTANT"] }).confidence = 1 :=
  c6_exclude_label_rejects {} 0 { label_ids := some ["INBOX", "IMPORTANT"] }
    "IMPORTANT" (by simp) (by simp)

/-- C5.  Time-boundary semantics of the older-than check: with a positive
`older_than_days`, no newer-than bound, and a parseable date `d`, the time
stage rejects iff `d > now - older_than_days * 86400` (strict inequality
against the cutoff), so a message dated exactly at the cutoff — age exactly
`N` days at evaluation time — passes the older-than check. -/
theorem c5_time_boundary (cfg : FilterConfig) (now d : Int) (md : EmailMetadata)
    (hN : 0 < cfg.older_than_days) (hnt : cfg.newer_than_days = none)
    (hd : md.date = some d) :
    ((_check_time_filters cfg now md).isSome = true ↔
        d > now - cfg.older_than_days * 86400) ∧
    (d = now - cfg.older_than_days * 86400 →
        _check_time_filters cfg now md = none) := by
  have hne : cfg.older_than_days ≠ 0 := by omega
  unfold _check_time_filters
  rw [hd, hnt]
  constructor
  · by_cases hgt : d > now - cfg.older_than_days * 86400
    · simp [hne, hgt]
    · simp [hgt]
  · intro hb
    have hng : ¬(d > now - cfg.older_than_days * 86400) := by omega
    simp [hng]

/-- C5, witness: `older_than_days = 30`, evaluation time `0`, message dated
exactly `-2592000` seconds (age exactly 30 days): the stage passes. -/
theorem c5_time_boundary_witness :
    ((_check_time_filters ({ older_than_days := 30 } : FilterConfig) 0
        { date := some (-2592000) }).isSome = true ↔
      (-2592000 : Int) > 0 - 30 * 86400) ∧
    ((-2592000 : Int) = 0 - 30 * 86400 →
      _check_time_filters ({ older_than_days := 30 } : FilterConfig) 0
        { date := some (-2592000) } = none) :=
  c5_time_boundary { older_than_days := 30 } 0 (-2592000)
    { date := some (-2592000) } (by norm_num) rfl rfl

/-- C7 (amended).  A message with an absent timestamp that the exclusion
stage does not reject is rejected by the time stage — a decision, never an
exception (the embedding is a total function) — with stage `"time"`,
confidence `0.5`, and reason `"Unable to parse email date"` (the source's
literal reason text; the spec's quoted reason "unparseable date" is not the
string the code produces). -/
theorem c7_missing_date_reject (cfg : FilterConfig) (now : Int)
    (md : EmailMetadata) (hd : md.date = none)
    (hex : _check_exclusions cfg md = none) :
    should_process_email cfg now md =
      { should_process := false, reason := "Unable to parse email date",
        confidence := 1/2, filter_type := "time" } := by
  have ht : _check_time_filters cfg now md =
      some { should_process := false, reason := "Unable to parse email date",
             confidence := 1/2, filter_type := "time" } := by
    unfold _check_time_filters
    rw [hd]
  exact spe_of_time hex ht rfl

/-- C7, counterexample to the claim as stated: on the default config and a
metadata dict with no date (and no excluded label), the decision carries
stage `"time"` and confidence `0.5` as claimed, but its reason string is
`"Unable to parse email date"`, not `"unparseable date"`. -/
theorem c7_counterexample :
    (should_process_email {} 0 {}).filter_type = "time" ∧
    (should_process_email {} 0 {}).confidence = 1/2 ∧
    (should_process_email {} 0 {}).reason = "Unable to parse email date" ∧
    (should_process_email {} 0 {}).reason ≠ "unparseable date" := by
  refine ⟨rfl, rfl, rfl, ?_⟩
  decide

/-- C7, witness for the amended theorem: default config, empty metadata. -/
theorem c7_missing_date_reject_witness :
    should_process_email {} 0 {} =
      { should_process := false, reason := "Unable to parse email date",
        confidence := 1/2, filter_type := "time" } :=
  c7_missing_date_reject {} 0 {} rfl rfl

/-- Metadata of the C8 scenario: subject `"Special Offer - 50% Off!"`,
sender `"sales@retailer.com"`. -/
def c8_md : EmailMetadata :=
  { sender := some "sales@retailer.com",
    subject := some "Special Offer - 50% Off!" }

/-- Evaluation of the promotional categorizer on the C8 scenario: exactly
two keywords hit ("offer" and "%"), so the score is `2/5` and the strict
threshold `> 2/5` is not crossed. -/
theorem c8_score_eval : categorize_email_promotional c8_md = (2/5, false) := by
  have h1 : substr ("sale") (lowerStr ("Special Offer - 50% Off!")) = false := by decide
  have h2 : substr ("deal") (lowerStr ("Special Offer - 50% Off!")) = false := by decide
  have h3 : substr ("offer") (lowerStr ("Special Offer - 50% Off!")) = true := by decide
  have h4 : substr ("discount") (lowerStr ("Special Offer - 50% Off!")) = false := by decide
  have h5 : substr ("limited time") (lowerStr ("Special Offer - 50% Off!")) = false := by decide
  have h6 : substr ("%") (lowerStr ("Special Offer - 50% Off!")) = true := by decide
  unfold categorize_email_promotional c8_md promotional_keywords
  simp only [List.foldl, Option.getD_some, h1, h2, h3, h4, h5, h6, if_true, if_false,
    Bool.false_eq_true, Bool.true_eq_false, ite_true, ite_false]
  norm_num [Prod.ext_iff]

/-- C8, counterexample to the claim as stated: on the scenario message the
promotional score is exactly `0.4` (two keyword hits, `"offer"` and `"%"`),
and the boolean threshold is strict (`score > 0.4`), so `is_promotional` is
`false`, not `true`. -/
theorem c8_counterexample :
    (categorize_email_promotional c8_md).2 = false := by
  rw [c8_score_eval]

/-- C8 (amended).  The scenario message scores exactly `0.4` on the
promotional axis — so "score ≥ 0.4" holds — but `is_promotional` is `false`,
because the code's boolean requires the score to exceed `0.4` strictly. -/
theorem c8_promotional_boundary :
    (categorize_email_promotional c8_md).1 = 2/5 ∧
    (categorize_email_promotional c8_md).1 ≥ 2/5 ∧
    (categorize_email_promotional c8_md).2 = false := by
  rw [c8_score_eval]
  norm_num

/-- Configuration of the C9 scenario: `older_than_days = 30`,
`exclude_labels = [SENT]`, every other rule list empty and every other
bound unset. -/
def c9_cfg : FilterConfig :=
  { older_than_days := 30, newer_than_days := none, min_size_mb := none,
    max_size_mb := none, exclude_senders := [], include_senders := [],
    newsletter_domains := [], exclude_labels := ["SENT"],
    include_labels := [], exclude_folders := [], custom_queries := [] }

/-- C9.  The query builder is a pure Lean function of the configuration
(hence deterministic), and on the scenario configuration its output — the
exact string `"older_than:30d -label:SENT"` — contains both the clause
`older_than:30d` and the clause `-label:SENT`. -/
theorem c9_query_contains :
    build_gmail_query c9_cfg = "older_than:30d -label:SENT" ∧
    substr ("older_than:30d") (build_gmail_query c9_cfg) = true ∧
    substr ("-label:SENT") (build_gmail_query c9_cfg) = true := by
  refine ⟨by decide, by decide, by decide⟩

/-- C10.  Totality on sparse metadata dictionaries: `should_process_email`
is a total function (it cannot raise), and a dict missing the `label_ids`,
`from`, `subject` and `size_estimate` keys is evaluated exactly as one
carrying the defaults `[]`, `""`, `""` and `0`; consequently, under a
positive configured minimum-size bound, such a message (when the exclusion
and time stages pass) is rejected at the size stage. -/
theorem c10_missing_keys_defaulted (cfg : FilterConfig) (now : Int)
    (md : EmailMetadata) (h1 : md.label_ids = none) (h2 : md.sender = none)
    (h3 : md.subject = none) (h4 : md.size_estimate = none) :
    should_process_email cfg now md =
      should_process_email cfg now
        { label_ids := some [], sender := some "", subject := some "",
          size_estimate := some 0, date := md.date } ∧
    (∀ m : Rat, cfg.min_size_mb = some m → 0 < m →
      _check_exclusions cfg md = none →
      _check_time_filters cfg now md = none →
      (should_process_email cfg now md).should_process = false ∧
      (should_process_email cfg now md).filter_type = "size" ∧
      (should_process_email cfg now md).confidence = 4/5) := by
  obtain ⟨lids, snd, subj, sz, dt⟩ := md
  simp only at h1 h2 h3 h4
  subst h1
  subst h2
  subst h3
  subst h4
  constructor
  · rfl
  · intro m hm hpos hex ht
    have hsz : _check_size_filters cfg
        ({ label_ids := none, sender := none, subject := none,
           size_estimate := none, date := dt } : EmailMetadata) =
        some { should_process := false,
               reason := "Email too small (" ++ ratStr 0 ++ " MB < " ++
                 ratStr m ++ " MB)",
               confidence := 4/5, filter_type := "size" } := by
      unfold _check_size_filters
      rw [hm]
      simp [hpos.ne', hpos]
    rw [spe_of_size hex ht hsz rfl]
    exact ⟨rfl, rfl, rfl⟩

/-- C10, witness: config with `min_size_mb = 1` and `older_than_days = 1`,
evaluation time `100000`, metadata carrying only a date (`0`, old enough to
pass the time stage): the all-missing-keys dict evaluates like the
defaulted one and is rejected at the size stage. -/
theorem c10_missing_keys_defaulted_witness :
    should_process_email
        ({ older_than_days := 1, min_size_mb := some 1 } : FilterConfig) 100000
        ({ date := some 0 } : EmailMetadata) =
      should_process_email
        ({ older_than_days := 1, min_size_mb := some 1 } : FilterConfig) 100000
        { label_ids := some [], sender := some "", subject := some "",
          size_estimate := some 0,
          date := ({ date := some 0 } : EmailMetadata).date } ∧
    (should_process_email
        ({ older_than_days := 1, min_size_mb := some 1 } : FilterConfig) 100000
        ({ date := some 0 } : EmailMetadata)).should_process = false ∧
    (should_process_email
        ({ older_than_days := 1, min_size_mb := some 1 } : FilterConfig) 100000
        ({ date := some 0 } : EmailMetadata)).filter_type = "size" ∧
    (should_process_email
        ({ older_than_days := 1, min_size_mb := some 1 } : FilterConfig) 100000
        ({ date := some 0 } : EmailMetadata)).confidence = 4/5 := by
  have h := c10_missing_keys_defaulted
    ({ older_than_days := 1, min_size_mb := some 1 } : FilterConfig) 100000
    ({ date := some 0 } : EmailMetadata) rfl rfl rfl rfl
  exact ⟨h.1, h.2 1 rfl (by norm_num) (by decide) (by decide)⟩
